import Mathlib

/-!
Verification development for the Agent Policy Engine (APE) enforcement core.

The error taxonomy is embedded from `src/python/errors.py`.  The authority
manager, runtime state machine, provenance manager and policy engine are not
present in the source tree (only their module export lists are), so those
operations are modelled from the architecture specification, as marked on
each definition.
-/

/-- Value stored in an error's structured detail mapping: either a string or
a list of strings (the schema-violation list). Embeds the value shapes used
by the constructors in `src/python/errors.py`. -/
inductive DetailValue
  | str (s : String)
  | strList (l : List String)
  deriving DecidableEq, Repr

/-- The structured detail mapping attached to every APE error
(`self.details` in `src/python/errors.py`). -/
abbrev Details := List (String × DetailValue)

/-- The closed set of error classes defined in `src/python/errors.py`. -/
inductive ErrKind
  | APEError
  | IntentError
  | PlanError
  | PlanMutationError
  | ActionError
  | PolicyError
  | PolicyDenyError
  | EscalationRequiredError
  | AuthorityExpiredError
  | UnauthorizedActionError
  | RuntimeStateError
  | ProvenanceError
  | VerificationError
  | SchemaValidationError
  | TokenConsumedError
  | TokenRevokedError
  | TokenNotFoundError
  | TenantMismatchError
  deriving DecidableEq, Repr, Fintype

/-- An APE error value: its class, message and detail mapping.  Embeds the
state built by `APEError.__init__` in `src/python/errors.py`: `self.message`
and `self.details = details or {}`. -/
structure APEError where
  kind : ErrKind
  message : String
  details : Details
  deriving DecidableEq, Repr

/-- The base-class constructor `APEError.__init__(message, details=None)`:
a `none` (or omitted) details argument yields the empty mapping. -/
def mkAPEError (message : String) (details : Option Details) : APEError :=
  ⟨ErrKind.APEError, message, details.getD []⟩

/-- Rendering of the detail mapping, standing for Python's dict repr. -/
def renderDetails (d : Details) : String :=
  "\x7b" ++ String.intercalate ", "
    (d.map fun kv =>
      match kv.2 with
      | DetailValue.str s => kv.1 ++ ": " ++ s
      | DetailValue.strList l => kv.1 ++ ": [" ++ String.intercalate ", " l ++ "]")
    ++ "\x7d"

/-- `APEError.__str__`: the message alone when the detail mapping is empty,
otherwise the message followed by the rendered details. -/
def errStr (e : APEError) : String :=
  if e.details = [] then e.message
  else e.message ++ " | Details: " ++ renderDetails e.details

/-- Immediate superclass of each error class in `src/python/errors.py`
(`None` for the base `APEError`). -/
def parent : ErrKind → Option ErrKind
  | ErrKind.APEError => none
  | ErrKind.IntentError => some ErrKind.APEError
  | ErrKind.PlanError => some ErrKind.APEError
  | ErrKind.PlanMutationError => some ErrKind.PlanError
  | ErrKind.ActionError => some ErrKind.APEError
  | ErrKind.PolicyError => some ErrKind.APEError
  | ErrKind.PolicyDenyError => some ErrKind.APEError
  | ErrKind.EscalationRequiredError => some ErrKind.APEError
  | ErrKind.AuthorityExpiredError => some ErrKind.APEError
  | ErrKind.UnauthorizedActionError => some ErrKind.APEError
  | ErrKind.RuntimeStateError => some ErrKind.APEError
  | ErrKind.ProvenanceError => some ErrKind.APEError
  | ErrKind.VerificationError => some ErrKind.APEError
  | ErrKind.SchemaValidationError => some ErrKind.VerificationError
  | ErrKind.TokenConsumedError => some ErrKind.APEError
  | ErrKind.TokenRevokedError => some ErrKind.APEError
  | ErrKind.TokenNotFoundError => some ErrKind.APEError
  | ErrKind.TenantMismatchError => some ErrKind.APEError

/-- Proper ancestors of an error class, by walking `parent` (the class
hierarchy has depth at most 2, fuel 3 is exhaustive). -/
def ancestorsAux : Nat → ErrKind → List ErrKind
  | 0, _ => []
  | n + 1, k =>
    match parent k with
    | none => []
    | some p => p :: ancestorsAux n p

/-- `derives k b` holds when class `k` is `b` or inherits from `b`:
an `except b` handler catches a raised `k`. -/
def derives (k b : ErrKind) : Bool :=
  k = b || (ancestorsAux 3 k).contains b

/-- `IntentError(message, details=None)`: inherits the base constructor. -/
def IntentError (message : String) (details : Option Details) : APEError :=
  ⟨ErrKind.IntentError, message, details.getD []⟩

/-- `PlanError(message, details=None)`: inherits the base constructor. -/
def PlanError (message : String) (details : Option Details) : APEError :=
  ⟨ErrKind.PlanError, message, details.getD []⟩

/-- `PlanMutationError(message="Plan mutation detected after approval")`:
calls the base constructor with no details. -/
def PlanMutationError (message : String) : APEError :=
  ⟨ErrKind.PlanMutationError, message, []⟩

/-- `ActionError(message, details=None)`: inherits the base constructor. -/
def ActionError (message : String) (details : Option Details) : APEError :=
  ⟨ErrKind.ActionError, message, details.getD []⟩

/-- `PolicyError(message, details=None)`: inherits the base constructor. -/
def PolicyError (message : String) (details : Option Details) : APEError :=
  ⟨ErrKind.PolicyError, message, details.getD []⟩

/-- `PolicyDenyError(action_id, reason)`: details carry the action id. -/
def PolicyDenyError (action_id reason : String) : APEError :=
  ⟨ErrKind.PolicyDenyError, reason, [("action_id", DetailValue.str action_id)]⟩

/-- `EscalationRequiredError(action_id, reason)`: details carry the action id. -/
def EscalationRequiredError (action_id reason : String) : APEError :=
  ⟨ErrKind.EscalationRequiredError, reason, [("action_id", DetailValue.str action_id)]⟩

/-- `AuthorityExpiredError(token_id)`: details carry the token id. -/
def AuthorityExpiredError (token_id : String) : APEError :=
  ⟨ErrKind.AuthorityExpiredError, "Authority token has expired",
    [("token_id", DetailValue.str token_id)]⟩

/-- `UnauthorizedActionError(reason="Unauthorized action")`: calls the base
constructor with the reason only — no detail mapping is attached. -/
def UnauthorizedActionError (reason : String) : APEError :=
  ⟨ErrKind.UnauthorizedActionError, reason, []⟩

/-- `RuntimeStateError(current_state, attempted_state)`: details carry both
states of the rejected transition. -/
def RuntimeStateError (current_state attempted_state : String) : APEError :=
  ⟨ErrKind.RuntimeStateError,
    "Illegal state transition: " ++ current_state ++ " → " ++ attempted_state,
    [("current_state", DetailValue.str current_state),
     ("attempted_state", DetailValue.str attempted_state)]⟩

/-- `ProvenanceError(message, details=None)`: inherits the base constructor. -/
def ProvenanceError (message : String) (details : Option Details) : APEError :=
  ⟨ErrKind.ProvenanceError, message, details.getD []⟩

/-- `VerificationError(message, details=None)`: inherits the base constructor. -/
def VerificationError (message : String) (details : Option Details) : APEError :=
  ⟨ErrKind.VerificationError, message, details.getD []⟩

/-- `SchemaValidationError(schema_type, errors)`: details carry the schema
type and the whole violation list, unmodified. -/
def SchemaValidationError (schema_type : String) (errors : List String) : APEError :=
  ⟨ErrKind.SchemaValidationError,
    "Schema validation failed for " ++ schema_type,
    [("schema_type", DetailValue.str schema_type),
     ("errors", DetailValue.strList errors)]⟩

/-- `TokenConsumedError(token_id)`: details carry the token id. -/
def TokenConsumedError (token_id : String) : APEError :=
  ⟨ErrKind.TokenConsumedError, "Token has already been consumed",
    [("token_id", DetailValue.str token_id)]⟩

/-- `TokenRevokedError(token_id)`: details carry the token id. -/
def TokenRevokedError (token_id : String) : APEError :=
  ⟨ErrKind.TokenRevokedError, "Token has been revoked",
    [("token_id", DetailValue.str token_id)]⟩

/-- `TokenNotFoundError(token_id)`: details carry the token id. -/
def TokenNotFoundError (token_id : String) : APEError :=
  ⟨ErrKind.TokenNotFoundError, "Token not found in registry",
    [("token_id", DetailValue.str token_id)]⟩

/-- `TenantMismatchError(expected_tenant, actual_tenant)`: details carry both
tenant identifiers. -/
def TenantMismatchError (expected_tenant actual_tenant : String) : APEError :=
  ⟨ErrKind.TenantMismatchError,
    "Tenant mismatch: expected " ++ expected_tenant ++ ", got " ++ actual_tenant,
    [("expected_tenant", DetailValue.str expected_tenant),
     ("actual_tenant", DetailValue.str actual_tenant)]⟩

/-- Modelled from the spec: `RuntimeState` (the runtime state machine of
`ape.runtime.state`, whose implementation is absent from the tree). The
closed set of lifecycle states of one runtime instance. -/
inductive RuntimeState
  | CREATED
  | INTENT_BOUND
  | PLAN_APPROVED
  | AUTHORIZED
  | EXECUTING
  | ESCALATED
  | COMPLETED
  | ABORTED
  | TERMINATED
  deriving DecidableEq, Repr

/-- Python-style name of each runtime state, as carried in error details. -/
def stateName : RuntimeState → String
  | RuntimeState.CREATED => "CREATED"
  | RuntimeState.INTENT_BOUND => "INTENT_BOUND"
  | RuntimeState.PLAN_APPROVED => "PLAN_APPROVED"
  | RuntimeState.AUTHORIZED => "AUTHORIZED"
  | RuntimeState.EXECUTING => "EXECUTING"
  | RuntimeState.ESCALATED => "ESCALATED"
  | RuntimeState.COMPLETED => "COMPLETED"
  | RuntimeState.ABORTED => "ABORTED"
  | RuntimeState.TERMINATED => "TERMINATED"

/-- Modelled from the spec: the static `VALID_TRANSITIONS` table of
`ape.runtime.state` — the chain CREATED → INTENT_BOUND → PLAN_APPROVED →
AUTHORIZED → EXECUTING ⇄ ESCALATED, completion from EXECUTING, and abort or
terminate from every non-terminal state; terminal states are absorbing. -/
def VALID_TRANSITIONS : List (RuntimeState × RuntimeState) :=
  [(RuntimeState.CREATED, RuntimeState.INTENT_BOUND),
   (RuntimeState.INTENT_BOUND, RuntimeState.PLAN_APPROVED),
   (RuntimeState.PLAN_APPROVED, RuntimeState.AUTHORIZED),
   (RuntimeState.AUTHORIZED, RuntimeState.EXECUTING),
   (RuntimeState.EXECUTING, RuntimeState.ESCALATED),
   (RuntimeState.ESCALATED, RuntimeState.EXECUTING),
   (RuntimeState.EXECUTING, RuntimeState.COMPLETED),
   (RuntimeState.CREATED, RuntimeState.ABORTED),
   (RuntimeState.INTENT_BOUND, RuntimeState.ABORTED),
   (RuntimeState.PLAN_APPROVED, RuntimeState.ABORTED),
   (RuntimeState.AUTHORIZED, RuntimeState.ABORTED),
   (RuntimeState.EXECUTING, RuntimeState.ABORTED),
   (RuntimeState.ESCALATED, RuntimeState.ABORTED),
   (RuntimeState.CREATED, RuntimeState.TERMINATED),
   (RuntimeState.INTENT_BOUND, RuntimeState.TERMINATED),
   (RuntimeState.PLAN_APPROVED, RuntimeState.TERMINATED),
   (RuntimeState.AUTHORIZED, RuntimeState.TERMINATED),
   (RuntimeState.EXECUTING, RuntimeState.TERMINATED),
   (RuntimeState.ESCALATED, RuntimeState.TERMINATED)]

/-- Modelled from the spec: `is_valid_transition(from, to)` consults the
static table; any pair not present is illegal. -/
def is_valid_transition (a b : RuntimeState) : Bool :=
  VALID_TRANSITIONS.contains (a, b)

/-- Modelled from the spec: `can_issue_authority(state)` is true only for
AUTHORIZED and EXECUTING. -/
def can_issue_authority : RuntimeState → Bool
  | RuntimeState.AUTHORIZED => true
  | RuntimeState.EXECUTING => true
  | _ => false

/-- Modelled from the spec: `can_execute(state)` is true only for EXECUTING. -/
def can_execute : RuntimeState → Bool
  | RuntimeState.EXECUTING => true
  | _ => false

/-- Modelled from the spec: attempting a transition of the runtime state
machine. An illegal pair raises the runtime state error carrying both
states; a legal pair moves to the target state. -/
def transition (a b : RuntimeState) : Except APEError RuntimeState :=
  if is_valid_transition a b then Except.ok b
  else Except.error (RuntimeStateError (stateName a) (stateName b))

/-- Modelled from the spec: `ProvenanceLabel` of `ape.provenance.manager` —
the closed trust classification set, ordered
SYSTEM > AGENT_INTERNAL > EXTERNAL_TRUSTED > EXTERNAL_UNTRUSTED. -/
inductive ProvenanceLabel
  | SYSTEM
  | AGENT_INTERNAL
  | EXTERNAL_TRUSTED
  | EXTERNAL_UNTRUSTED
  deriving DecidableEq, Repr, Fintype

/-- Modelled from the spec: numeric trust rank realising the fixed ordering
(the larger, the more trusted). -/
def trustLevel : ProvenanceLabel → Nat
  | ProvenanceLabel.SYSTEM => 3
  | ProvenanceLabel.AGENT_INTERNAL => 2
  | ProvenanceLabel.EXTERNAL_TRUSTED => 1
  | ProvenanceLabel.EXTERNAL_UNTRUSTED => 0

/-- Modelled from the spec: `combine_provenance(a, b)` is pure and returns
the less-trusted of the two labels. -/
def combine_provenance (a b : ProvenanceLabel) : ProvenanceLabel :=
  if trustLevel a ≤ trustLevel b then a else b

/-- Modelled from the spec: `permits_authority(label)` — true only for
EXTERNAL_TRUSTED and higher. -/
def permits_authority (l : ProvenanceLabel) : Bool :=
  trustLevel ProvenanceLabel.EXTERNAL_TRUSTED ≤ trustLevel l

/-- Modelled from the spec: the state of an authority token held in the
registry. EXPIRED is derived from the expiration timestamp, not stored. -/
inductive TokenState
  | ISSUED
  | CONSUMED
  | REVOKED
  deriving DecidableEq, Repr

/-- Modelled from the spec: `AuthorityToken` — the capability object with
its identifier, authorized action kind, tenant, issuance and expiration
timestamps, state, and back-references to plan hash and runtime instance. -/
structure AuthorityToken where
  token_id : String
  action_kind : String
  tenant_id : String
  issued_at : Nat
  expires_at : Nat
  state : TokenState
  plan_hash : String
  runtime_id : String
  deriving DecidableEq, Repr

/-- Modelled from the spec: the Authority Manager's token registry, keyed by
token identifier. -/
def AuthorityManager := String → Option AuthorityToken

/-- Modelled from the spec: an `Action` — action kind, provenance label,
tenant identifier and an action identifier. (Named `APEAction` here because
Mathlib already declares `Action`.) -/
structure APEAction where
  action_id : String
  kind : String
  provenance : ProvenanceLabel
  tenant_id : String
  deriving DecidableEq, Repr

/-- Modelled from the spec: the runtime-instance view the Authority Manager
needs — identifier, current state, tenant and bound plan hash. -/
structure RuntimeInstance where
  runtime_id : String
  state : RuntimeState
  tenant_id : String
  plan_hash : String
  deriving DecidableEq, Repr

/-- Modelled from the spec: `PolicyDecision` — ALLOW, DENY or ESCALATE. -/
inductive PolicyDecision
  | ALLOW
  | DENY
  | ESCALATE
  deriving DecidableEq, Repr

/-- Replace the state of a token value. -/
def tokenWithState (t : AuthorityToken) (s : TokenState) : AuthorityToken :=
  { t with state := s }

/-- Update the registry entry at one token identifier to a new state. -/
def setTokenState (mgr : AuthorityManager) (tid : String) (s : TokenState) :
    AuthorityManager :=
  fun i => if i = tid then (mgr i).map (fun t => tokenWithState t s) else mgr i

/-- Insert a token into the registry under a given identifier. -/
def putToken (mgr : AuthorityManager) (tid : String) (t : AuthorityToken) :
    AuthorityManager :=
  fun i => if i = tid then some t else mgr i

/-- Modelled from the spec: `AuthorityManager.consume(token_id)` in the
requesting tenant context at the current time. Order of checks per the
spec: unknown id raises not-found; tenant mismatch is checked before
everything else; a consumed token raises already-consumed; a revoked token
raises revoked; an expired token raises expired; otherwise the single
successful consumption transitions ISSUED → CONSUMED. -/
def consume (mgr : AuthorityManager) (ctxTenant tid : String) (now : Nat) :
    Except APEError AuthorityManager :=
  match mgr tid with
  | none => Except.error (TokenNotFoundError tid)
  | some t =>
    if t.tenant_id ≠ ctxTenant then
      Except.error (TenantMismatchError ctxTenant t.tenant_id)
    else if t.state = TokenState.CONSUMED then
      Except.error (TokenConsumedError tid)
    else if t.state = TokenState.REVOKED then
      Except.error (TokenRevokedError tid)
    else if t.expires_at ≤ now then
      Except.error (AuthorityExpiredError tid)
    else
      Except.ok (setTokenState mgr tid TokenState.CONSUMED)

/-- Modelled from the spec: `AuthorityManager.revoke(token_id)` in the
requesting tenant context. Unknown id raises not-found; tenant mismatch is
checked before everything else; an ISSUED token transitions to REVOKED;
revocation is an idempotent no-op on already-consumed or already-revoked
tokens. -/
def revoke (mgr : AuthorityManager) (ctxTenant tid : String) :
    Except APEError AuthorityManager :=
  match mgr tid with
  | none => Except.error (TokenNotFoundError tid)
  | some t =>
    if t.tenant_id ≠ ctxTenant then
      Except.error (TenantMismatchError ctxTenant t.tenant_id)
    else if t.state = TokenState.ISSUED then
      Except.ok (setTokenState mgr tid TokenState.REVOKED)
    else
      Except.ok mgr

/-- Modelled from the spec: token lookup in the requesting tenant context.
Unknown identifiers raise not-found; tenant mismatch raises the dedicated
tenant error before anything else. -/
def lookupToken (mgr : AuthorityManager) (ctxTenant tid : String) :
    Except APEError AuthorityToken :=
  match mgr tid with
  | none => Except.error (TokenNotFoundError tid)
  | some t =>
    if t.tenant_id ≠ ctxTenant then
      Except.error (TenantMismatchError ctxTenant t.tenant_id)
    else
      Except.ok t

/-- The provenance error `issue` raises when the action's label does not
permit authority creation. -/
def provenanceIssueError (action_id : String) : APEError :=
  ProvenanceError
    "EXTERNAL_UNTRUSTED data may not participate in authority creation"
    (some [("action_id", DetailValue.str action_id)])

/-- Modelled from the spec: `AuthorityManager.issue(action, runtime)` given
the policy decision for the action. Tenant mismatch is checked before all
else; then the runtime state must permit issuance; then the action's
provenance must be at least EXTERNAL_TRUSTED (EXTERNAL_UNTRUSTED never
produces a token, a provenance error, not a policy error); then the policy
decision must be ALLOW. On success a fresh single-use token scoped to the
action kind, tenant and plan hash is registered with a bounded expiration. -/
def issue (mgr : AuthorityManager) (a : APEAction) (rt : RuntimeInstance)
    (d : PolicyDecision) (now lifetime : Nat) (newId : String) :
    Except APEError (AuthorityToken × AuthorityManager) :=
  if a.tenant_id ≠ rt.tenant_id then
    Except.error (TenantMismatchError rt.tenant_id a.tenant_id)
  else if can_issue_authority rt.state = false then
    Except.error (UnauthorizedActionError
      "Authority may not be issued in the current runtime state")
  else if permits_authority a.provenance = false then
    Except.error (provenanceIssueError a.action_id)
  else
    match d with
    | PolicyDecision.DENY =>
      Except.error (PolicyDenyError a.action_id "Action denied by policy")
    | PolicyDecision.ESCALATE =>
      Except.error (EscalationRequiredError a.action_id "Action requires escalation")
    | PolicyDecision.ALLOW =>
      let tok : AuthorityToken :=
        ⟨newId, a.kind, a.tenant_id, now, now + lifetime, TokenState.ISSUED,
         rt.plan_hash, rt.runtime_id⟩
      Except.ok (tok, putToken mgr newId tok)

/-- Modelled from the spec: one policy rule, mapping an action-kind pattern
to an outcome. -/
structure PolicyRule where
  kind : String
  outcome : PolicyDecision
  deriving DecidableEq, Repr

/-- Modelled from the spec: a raw declarative policy document (name,
version, rules array, default outcome) before schema validation. -/
structure PolicyDoc where
  name : String
  version : String
  rules : List PolicyRule
  default_outcome : PolicyDecision
  deriving DecidableEq, Repr

/-- Modelled from the spec: schema validation of a policy document,
returning the full list of violations — the name must be non-empty, the
default outcome must be DENY or ESCALATE (never ALLOW: default-deny), and
every rule must name a non-empty action kind. -/
def policyViolations (doc : PolicyDoc) : List String :=
  (if doc.name = "" then ["policy name must be non-empty"] else []) ++
  (if doc.default_outcome = PolicyDecision.ALLOW then
    ["default outcome must be DENY or ESCALATE"] else []) ++
  (doc.rules.filterMap fun r =>
    if r.kind = "" then some "rule action kind must be non-empty" else none)

/-- Modelled from the spec: a loaded policy — validated at load time and
immutable thereafter, so evaluation never sees a malformed document. -/
structure Policy where
  doc : PolicyDoc
  valid : policyViolations doc = []

/-- Modelled from the spec: loading a policy document. Validation happens
here, at load time; a malformed document is hard-rejected with the schema
validation error carrying the entire violation list. -/
def load_policy (doc : PolicyDoc) : Except APEError Policy :=
  if h : policyViolations doc = [] then Except.ok ⟨doc, h⟩
  else Except.error (SchemaValidationError "policy" (policyViolations doc))

/-- Modelled from the spec: `evaluate(action)` — first match in declaration
order wins, no match falls back to the declared default outcome. A total
pure function on loaded (hence valid) policies: no error is ever raised at
evaluation time. -/
def evaluate (p : Policy) (a : APEAction) : PolicyDecision :=
  match p.doc.rules.find? (fun r => r.kind = a.kind) with
  | some r => r.outcome
  | none => p.doc.default_outcome

/-- The invariants the spec enumerates in its error-handling design, one
per error kind. -/
inductive SpecInvariant
  | intentValidation
  | planValidation
  | actionValidation
  | policyLoad
  | policyDeny
  | escalationRequired
  | authorityExpired
  | unauthorizedAction
  | illegalTransition
  | provenanceViolation
  | schemaHashVerification
  | tokenConsumed
  | tokenRevoked
  | tokenNotFound
  | tenantMismatch
  deriving DecidableEq, Repr, Fintype

/-- The error class of `src/python/errors.py` dedicated to each
spec-enumerated invariant. -/
def errorKindFor : SpecInvariant → ErrKind
  | SpecInvariant.intentValidation => ErrKind.IntentError
  | SpecInvariant.planValidation => ErrKind.PlanError
  | SpecInvariant.actionValidation => ErrKind.ActionError
  | SpecInvariant.policyLoad => ErrKind.PolicyError
  | SpecInvariant.policyDeny => ErrKind.PolicyDenyError
  | SpecInvariant.escalationRequired => ErrKind.EscalationRequiredError
  | SpecInvariant.authorityExpired => ErrKind.AuthorityExpiredError
  | SpecInvariant.unauthorizedAction => ErrKind.UnauthorizedActionError
  | SpecInvariant.illegalTransition => ErrKind.RuntimeStateError
  | SpecInvariant.provenanceViolation => ErrKind.ProvenanceError
  | SpecInvariant.schemaHashVerification => ErrKind.VerificationError
  | SpecInvariant.tokenConsumed => ErrKind.TokenConsumedError
  | SpecInvariant.tokenRevoked => ErrKind.TokenRevokedError
  | SpecInvariant.tokenNotFound => ErrKind.TokenNotFoundError
  | SpecInvariant.tenantMismatch => ErrKind.TenantMismatchError

/-- Concrete fixture: an ISSUED token for tenant-a expiring at time 100. -/
def tokenIssued : AuthorityToken :=
  ⟨"tok-1", "read_file", "tenant-a", 0, 100, TokenState.ISSUED, "plan-hash-1", "rt-1"⟩

/-- Concrete fixture: a registry holding exactly `tokenIssued`. -/
def registryOne : AuthorityManager :=
  fun i => if i = "tok-1" then some tokenIssued else none

/-- Concrete fixture: an ISSUED token belonging to tenant-b. -/
def tokenOtherTenant : AuthorityToken :=
  ⟨"tok-2", "read_file", "tenant-b", 0, 100, TokenState.ISSUED, "plan-hash-1", "rt-1"⟩

/-- Concrete fixture: a registry holding exactly `tokenOtherTenant`. -/
def registryOther : AuthorityManager :=
  fun i => if i = "tok-2" then some tokenOtherTenant else none

/-- Concrete fixture: an empty token registry. -/
def emptyRegistry : AuthorityManager := fun _ => none

/-- Concrete fixture: an action carrying the EXTERNAL_UNTRUSTED label. -/
def actionUntrusted : APEAction :=
  ⟨"act-1", "read_file", ProvenanceLabel.EXTERNAL_UNTRUSTED, "tenant-a"⟩

/-- Concrete fixture: a runtime instance in the EXECUTING state. -/
def runtimeExecuting : RuntimeInstance :=
  ⟨"rt-1", RuntimeState.EXECUTING, "tenant-a", "plan-hash-1"⟩

/-- Concrete fixture: a policy document whose default outcome is ALLOW,
violating the default-deny schema rule. -/
def badPolicyDoc : PolicyDoc :=
  ⟨"p1", "1.0", [⟨"read_file", PolicyDecision.ALLOW⟩], PolicyDecision.ALLOW⟩

/-- C4: `combine_provenance` returns the less-trusted of its two arguments
under the fixed trust ordering SYSTEM > AGENT_INTERNAL > EXTERNAL_TRUSTED >
EXTERNAL_UNTRUSTED; it is commutative and idempotent and the trust of the
result never exceeds the trust of either argument. It is pure by
construction: a Lean function of its two arguments alone, touching no
state. -/
theorem combine_provenance_least_trusted :
    (trustLevel ProvenanceLabel.EXTERNAL_UNTRUSTED <
       trustLevel ProvenanceLabel.EXTERNAL_TRUSTED ∧
     trustLevel ProvenanceLabel.EXTERNAL_TRUSTED <
       trustLevel ProvenanceLabel.AGENT_INTERNAL ∧
     trustLevel ProvenanceLabel.AGENT_INTERNAL <
       trustLevel ProvenanceLabel.SYSTEM) ∧
    ∀ a b : ProvenanceLabel,
      trustLevel (combine_provenance a b) = min (trustLevel a) (trustLevel b) ∧
      (combine_provenance a b = a ∨ combine_provenance a b = b) ∧
      combine_provenance a b = combine_provenance b a ∧
      combine_provenance a a = a ∧
      trustLevel (combine_provenance a b) ≤ trustLevel a ∧
      trustLevel (combine_provenance a b) ≤ trustLevel b := by
  decide

/-- C3: every (from, to) pair of runtime states absent from the static
valid-transition table makes `transition` raise the illegal-transition
runtime state error — never a silent success — and the raised error's
structured details carry exactly that (from, to) pair. -/
theorem illegal_transition_raises_state_error :
    ∀ a b : RuntimeState, is_valid_transition a b = false →
      transition a b =
        Except.error (RuntimeStateError (stateName a) (stateName b)) ∧
      (RuntimeStateError (stateName a) (stateName b)).kind =
        ErrKind.RuntimeStateError ∧
      (RuntimeStateError (stateName a) (stateName b)).details =
        [("current_state", DetailValue.str (stateName a)),
         ("attempted_state", DetailValue.str (stateName b))] := by
  intro a b h
  refine ⟨?_, rfl, rfl⟩
  simp [transition, h]

/-- Witness for C3 at the concrete illegal pair (COMPLETED, CREATED): a
terminal state is absorbing, so the pair is not in the table and the error
carries both states. -/
theorem illegal_transition_raises_state_error_witness :
    is_valid_transition RuntimeState.COMPLETED RuntimeState.CREATED = false ∧
    (transition RuntimeState.COMPLETED RuntimeState.CREATED =
      Except.error (RuntimeStateError (stateName RuntimeState.COMPLETED)
        (stateName RuntimeState.CREATED)) ∧
     (RuntimeStateError (stateName RuntimeState.COMPLETED)
        (stateName RuntimeState.CREATED)).kind = ErrKind.RuntimeStateError ∧
     (RuntimeStateError (stateName RuntimeState.COMPLETED)
        (stateName RuntimeState.CREATED)).details =
       [("current_state", DetailValue.str (stateName RuntimeState.COMPLETED)),
        ("attempted_state", DetailValue.str (stateName RuntimeState.CREATED))]) :=
  ⟨by decide,
   illegal_transition_raises_state_error RuntimeState.COMPLETED
     RuntimeState.CREATED (by decide)⟩

/-- C5 counterexample: the unauthorized-action error constructed by
`UnauthorizedActionError.__init__` carries an empty detail mapping — no
token identifier and no states — refuting the claim that every token and
state/authorization error reaching the gate's caller carries full context
in its structured details. -/
theorem unauthorized_action_error_lacks_context :
    (UnauthorizedActionError "Unauthorized action").kind =
      ErrKind.UnauthorizedActionError ∧
    (UnauthorizedActionError "Unauthorized action").details = [] :=
  ⟨rfl, rfl⟩

/-- C5 amended: every token error (authority-expired, token-consumed,
token-revoked, token-not-found) carries the token identifier in its
structured details and the runtime state error carries both states; the
unauthorized-action error, however, carries only its message, with an
empty detail mapping. -/
theorem token_and_state_errors_carry_context :
    (∀ tid : String,
      (AuthorityExpiredError tid).details = [("token_id", DetailValue.str tid)] ∧
      (TokenConsumedError tid).details = [("token_id", DetailValue.str tid)] ∧
      (TokenRevokedError tid).details = [("token_id", DetailValue.str tid)] ∧
      (TokenNotFoundError tid).details = [("token_id", DetailValue.str tid)]) ∧
    (∀ a b : String,
      (RuntimeStateError a b).details =
        [("current_state", DetailValue.str a),
         ("attempted_state", DetailValue.str b)]) ∧
    (∀ r : String, (UnauthorizedActionError r).details = []) :=
  ⟨fun _ => ⟨rfl, rfl, rfl, rfl⟩, fun _ _ => rfl, fun _ => rfl⟩

/-- C8: the error set is closed and typed — the map from spec-enumerated
invariants to error classes is injective (exactly one class per invariant),
every class derives from the single base APEError, and every class defined
in the code is the base, the class of an enumerated invariant, or a direct
subclass of one: no error kind outside the enumeration exists. -/
theorem error_kinds_closed_and_typed :
    (∀ i j : SpecInvariant, errorKindFor i = errorKindFor j → i = j) ∧
    (∀ k : ErrKind, derives k ErrKind.APEError = true) ∧
    (∀ k : ErrKind, k = ErrKind.APEError ∨
      (∃ i, errorKindFor i = k) ∨
      (∃ i, parent k = some (errorKindFor i))) := by
  decide

/-- Witness for C8, instantiating the injectivity conjunct at a concrete
pair of invariants. -/
theorem error_kinds_closed_and_typed_witness :
    errorKindFor SpecInvariant.tokenConsumed =
      errorKindFor SpecInvariant.tokenConsumed ∧
    SpecInvariant.tokenConsumed = SpecInvariant.tokenConsumed :=
  ⟨rfl, error_kinds_closed_and_typed.1 SpecInvariant.tokenConsumed
    SpecInvariant.tokenConsumed rfl⟩

/-- C9: every error class derives from the single base APEError (so one
base-class handler catches them all, structured detail intact); the base
constructor turns an absent detail mapping into the empty mapping and keeps
a present one; and the string rendering equals the bare message exactly
when the detail mapping is empty. -/
theorem ape_error_base_and_details :
    (∀ k : ErrKind, derives k ErrKind.APEError = true) ∧
    (∀ m : String, (mkAPEError m none).details = []) ∧
    (∀ (m : String) (d : Details), (mkAPEError m (some d)).details = d) ∧
    (∀ e : APEError, errStr e = e.message ↔ e.details = []) := by
  refine ⟨by decide, fun _ => rfl, fun _ _ => rfl, fun e => ?_⟩
  constructor
  · intro h
    by_contra hne
    rw [errStr, if_neg hne] at h
    have hlen := congrArg String.length h
    have h12 : (" | Details: ").length = 12 := rfl
    simp only [String.length_append, h12] at hlen
    omega
  · intro h
    rw [errStr, if_pos h]

/-- C10: the plan-mutation error class is a subclass of the plan error
class and the schema-validation error class is a subclass of the
verification error class — refinements, not siblings — so a handler for
the broader kind also catches the refined one. -/
theorem error_subtype_refinements :
    parent ErrKind.PlanMutationError = some ErrKind.PlanError ∧
    parent ErrKind.SchemaValidationError = some ErrKind.VerificationError ∧
    derives ErrKind.PlanMutationError ErrKind.PlanError = true ∧
    derives ErrKind.SchemaValidationError ErrKind.VerificationError = true ∧
    ErrKind.PlanMutationError ≠ ErrKind.PlanError ∧
    ErrKind.SchemaValidationError ≠ ErrKind.VerificationError := by
  decide

/-- C2: for every action labelled EXTERNAL_UNTRUSTED, `issue` raises the
provenance error — not a policy error — and never produces a token, for
every possible policy decision including ALLOW, whenever the tenant matches
and the runtime state permits issuance (the spec checks tenant and state
first). -/
theorem issue_rejects_untrusted_provenance :
    ∀ (mgr : AuthorityManager) (a : APEAction) (rt : RuntimeInstance)
      (d : PolicyDecision) (now lifetime : Nat) (newId : String),
      a.provenance = ProvenanceLabel.EXTERNAL_UNTRUSTED →
      a.tenant_id = rt.tenant_id →
      can_issue_authority rt.state = true →
      issue mgr a rt d now lifetime newId =
        Except.error (provenanceIssueError a.action_id) ∧
      (provenanceIssueError a.action_id).kind = ErrKind.ProvenanceError ∧
      (provenanceIssueError a.action_id).kind ≠ ErrKind.PolicyDenyError ∧
      (provenanceIssueError a.action_id).kind ≠ ErrKind.PolicyError ∧
      ∀ res, issue mgr a rt d now lifetime newId ≠ Except.ok res := by
  intro mgr a rt d now lifetime newId hp ht hs
  have hmain : issue mgr a rt d now lifetime newId =
      Except.error (provenanceIssueError a.action_id) := by
    simp [issue, ht, hs, hp, permits_authority, trustLevel]
  refine ⟨hmain, rfl, fun h => ErrKind.noConfusion h,
    fun h => ErrKind.noConfusion h, fun res h => ?_⟩
  rw [hmain] at h
  exact Except.noConfusion h

/-- Witness for C2 at a concrete EXTERNAL_UNTRUSTED action, with the policy
decision instantiated to ALLOW. -/
theorem issue_rejects_untrusted_provenance_witness :
    actionUntrusted.provenance = ProvenanceLabel.EXTERNAL_UNTRUSTED ∧
    actionUntrusted.tenant_id = runtimeExecuting.tenant_id ∧
    can_issue_authority runtimeExecuting.state = true ∧
    (issue emptyRegistry actionUntrusted runtimeExecuting
        PolicyDecision.ALLOW 0 60 "tok-9" =
      Except.error (provenanceIssueError actionUntrusted.action_id) ∧
     (provenanceIssueError actionUntrusted.action_id).kind =
       ErrKind.ProvenanceError ∧
     (provenanceIssueError actionUntrusted.action_id).kind ≠
       ErrKind.PolicyDenyError ∧
     (provenanceIssueError actionUntrusted.action_id).kind ≠
       ErrKind.PolicyError ∧
     ∀ res, issue emptyRegistry actionUntrusted runtimeExecuting
        PolicyDecision.ALLOW 0 60 "tok-9" ≠ Except.ok res) :=
  ⟨rfl, rfl, rfl,
   issue_rejects_untrusted_provenance emptyRegistry actionUntrusted
     runtimeExecuting PolicyDecision.ALLOW 0 60 "tok-9" rfl rfl rfl⟩

/-- C1: token consumption succeeds exactly once. The first consume of an
ISSUED, unexpired, tenant-matching token succeeds and moves it to CONSUMED;
thereafter every consume attempt on it fails with the token-consumed error
and every revoke attempt is a no-op; and no successful consume, revoke or
issue (under a fresh identifier) ever changes a token that is not ISSUED —
in particular nothing moves a token from CONSUMED or REVOKED back to
ISSUED. -/
theorem token_single_use :
    (∀ (mgr : AuthorityManager) (ctx tid : String) (now : Nat)
       (t : AuthorityToken),
      mgr tid = some t → t.tenant_id = ctx → t.state = TokenState.ISSUED →
      now < t.expires_at →
      ∃ mgr2 : AuthorityManager,
        consume mgr ctx tid now = Except.ok mgr2 ∧
        mgr2 tid = some (tokenWithState t TokenState.CONSUMED) ∧
        (∀ now2 : Nat,
          consume mgr2 ctx tid now2 = Except.error (TokenConsumedError tid)) ∧
        revoke mgr2 ctx tid = Except.ok mgr2) ∧
    (∀ (mgr mgr2 : AuthorityManager) (ctx tid : String) (now : Nat)
       (tid2 : String) (t2 : AuthorityToken),
      consume mgr ctx tid now = Except.ok mgr2 →
      mgr tid2 = some t2 → t2.state ≠ TokenState.ISSUED →
      mgr2 tid2 = some t2) ∧
    (∀ (mgr mgr2 : AuthorityManager) (ctx tid tid2 : String)
       (t2 : AuthorityToken),
      revoke mgr ctx tid = Except.ok mgr2 →
      mgr tid2 = some t2 → t2.state ≠ TokenState.ISSUED →
      mgr2 tid2 = some t2) ∧
    (∀ (mgr : AuthorityManager) (a : APEAction) (rt : RuntimeInstance)
       (d : PolicyDecision) (now lifetime : Nat) (newId : String)
       (tok : AuthorityToken) (mgr2 : AuthorityManager)
       (tid2 : String) (t2 : AuthorityToken),
      issue mgr a rt d now lifetime newId = Except.ok (tok, mgr2) →
      mgr newId = none →
      mgr tid2 = some t2 → t2.state ≠ TokenState.ISSUED →
      mgr2 tid2 = some t2) := by
  refine ⟨?_, ?_, ?_, ?_⟩
  · intro mgr ctx tid now t hmt htenant hstate hexp
    have h2 : setTokenState mgr tid TokenState.CONSUMED tid =
        some (tokenWithState t TokenState.CONSUMED) := by
      simp [setTokenState, hmt]
    refine ⟨setTokenState mgr tid TokenState.CONSUMED, ?_, h2, ?_, ?_⟩
    · simp [consume, hmt, htenant, hstate, Nat.not_le.mpr hexp]
    · intro now2
      simp [consume, h2, tokenWithState, htenant]
    · simp [revoke, h2, tokenWithState, htenant]
  · intro mgr mgr2 ctx tid now tid2 t2 hok hmt2 hne
    cases hmt : mgr tid with
    | none => simp [consume, hmt] at hok
    | some t =>
      by_cases h1 : t.tenant_id = ctx
      · by_cases hc : t.state = TokenState.CONSUMED
        · simp [consume, hmt, h1, hc] at hok
        · by_cases hr : t.state = TokenState.REVOKED
          · simp [consume, hmt, h1, hc, hr] at hok
          · by_cases hx : t.expires_at ≤ now
            · simp [consume, hmt, h1, hc, hr, hx] at hok
            · simp [consume, hmt, h1, hc, hr, hx] at hok
              subst hok
              by_cases he : tid2 = tid
              · subst he
                rw [hmt] at hmt2
                have ht2 : t = t2 := Option.some.inj hmt2
                subst ht2
                have hst : t.state = TokenState.ISSUED := by
                  cases hs : t.state
                  · rfl
                  · exact absurd hs hc
                  · exact absurd hs hr
                exact absurd hst hne
              · simp [setTokenState, he, hmt2]
      · simp [consume, hmt, h1] at hok
  · intro mgr mgr2 ctx tid tid2 t2 hok hmt2 hne
    cases hmt : mgr tid with
    | none => simp [revoke, hmt] at hok
    | some t =>
      by_cases h1 : t.tenant_id = ctx
      · by_cases hi : t.state = TokenState.ISSUED
        · simp [revoke, hmt, h1, hi] at hok
          subst hok
          by_cases he : tid2 = tid
          · subst he
            rw [hmt] at hmt2
            have ht2 : t = t2 := Option.some.inj hmt2
            subst ht2
            exact absurd hi hne
          · simp [setTokenState, he, hmt2]
        · simp [revoke, hmt, h1, hi] at hok
          rw [← hok]
          exact hmt2
      · simp [revoke, hmt, h1] at hok
  · intro mgr a rt d now lifetime newId tok mgr2 tid2 t2 hok hfresh hmt2 hne
    by_cases h1 : a.tenant_id = rt.tenant_id
    · by_cases h2 : can_issue_authority rt.state = false
      · simp [issue, h1, h2] at hok
      · by_cases h3 : permits_authority a.provenance = false
        · simp [issue, h1, h2, h3] at hok
        · cases d with
          | DENY => simp [issue, h1, h2, h3] at hok
          | ESCALATE => simp [issue, h1, h2, h3] at hok
          | ALLOW =>
            simp [issue, h1, h2, h3] at hok
            obtain ⟨htok, hmgr⟩ := hok
            subst hmgr
            by_cases he : tid2 = newId
            · subst he
              rw [hfresh] at hmt2
              exact Option.noConfusion hmt2
            · simp [putToken, he, hmt2]
    · simp [issue, h1] at hok

/-- Witness for C1 on a concrete one-token registry: the first consume at
time 5 succeeds and every later consume fails with the token-consumed
error while revoke is a no-op. -/
theorem token_single_use_witness :
    registryOne "tok-1" = some tokenIssued ∧
    tokenIssued.tenant_id = "tenant-a" ∧
    tokenIssued.state = TokenState.ISSUED ∧
    (5 : Nat) < tokenIssued.expires_at ∧
    ∃ mgr2 : AuthorityManager,
      consume registryOne "tenant-a" "tok-1" 5 = Except.ok mgr2 ∧
      mgr2 "tok-1" = some (tokenWithState tokenIssued TokenState.CONSUMED) ∧
      (∀ now2 : Nat,
        consume mgr2 "tenant-a" "tok-1" now2 =
          Except.error (TokenConsumedError "tok-1")) ∧
      revoke mgr2 "tenant-a" "tok-1" = Except.ok mgr2 :=
  ⟨by decide, by decide, by decide, by decide,
   token_single_use.1 registryOne "tenant-a" "tok-1" 5 tokenIssued
     (by decide) (by decide) (by decide) (by decide)⟩

/-- C7: whenever the token's tenant differs from the requesting context's
tenant, consume, revoke and lookup raise the dedicated tenant-mismatch
error carrying both tenants, before any other check or state change — the
error is raised whatever the token state, expiry time or, for issue,
runtime state and policy decision, and no updated registry is produced —
and `issue` likewise raises it when the action's tenant differs from the
runtime's. -/
theorem tenant_check_precedes_all :
    (∀ (mgr : AuthorityManager) (ctx tid : String) (now : Nat)
       (t : AuthorityToken),
      mgr tid = some t → t.tenant_id ≠ ctx →
      consume mgr ctx tid now =
        Except.error (TenantMismatchError ctx t.tenant_id)) ∧
    (∀ (mgr : AuthorityManager) (ctx tid : String) (t : AuthorityToken),
      mgr tid = some t → t.tenant_id ≠ ctx →
      revoke mgr ctx tid =
        Except.error (TenantMismatchError ctx t.tenant_id)) ∧
    (∀ (mgr : AuthorityManager) (ctx tid : String) (t : AuthorityToken),
      mgr tid = some t → t.tenant_id ≠ ctx →
      lookupToken mgr ctx tid =
        Except.error (TenantMismatchError ctx t.tenant_id)) ∧
    (∀ (mgr : AuthorityManager) (a : APEAction) (rt : RuntimeInstance)
       (d : PolicyDecision) (now lifetime : Nat) (newId : String),
      a.tenant_id ≠ rt.tenant_id →
      issue mgr a rt d now lifetime newId =
        Except.error (TenantMismatchError rt.tenant_id a.tenant_id)) ∧
    (∀ expected actual : String,
      (TenantMismatchError expected actual).kind =
        ErrKind.TenantMismatchError ∧
      (TenantMismatchError expected actual).details =
        [("expected_tenant", DetailValue.str expected),
         ("actual_tenant", DetailValue.str actual)]) := by
  refine ⟨?_, ?_, ?_, ?_, fun _ _ => ⟨rfl, rfl⟩⟩
  · intro mgr ctx tid now t hmt hten
    simp [consume, hmt, hten]
  · intro mgr ctx tid t hmt hten
    simp [revoke, hmt, hten]
  · intro mgr ctx tid t hmt hten
    simp [lookupToken, hmt, hten]
  · intro mgr a rt d now lifetime newId hten
    simp [issue, hten]

/-- Witness for C7: a consume attempt from tenant-a on a token belonging
to tenant-b raises the tenant-mismatch error carrying both tenants. -/
theorem tenant_check_precedes_all_witness :
    registryOther "tok-2" = some tokenOtherTenant ∧
    tokenOtherTenant.tenant_id ≠ "tenant-a" ∧
    consume registryOther "tenant-a" "tok-2" 0 =
      Except.error (TenantMismatchError "tenant-a" tokenOtherTenant.tenant_id) :=
  ⟨by decide, by decide,
   tenant_check_precedes_all.1 registryOther "tenant-a" "tok-2" 0
     tokenOtherTenant (by decide) (by decide)⟩

/-- C6: a malformed policy document is hard-rejected at load time with the
schema-validation error whose details carry the entire violation list
unmodified; the schema-validation error carries any schema type and
violation list unmodified; and only documents with no violations load, so
evaluation — a total function on loaded policies — never sees a malformed
policy. -/
theorem malformed_policy_fails_at_load :
    (∀ doc : PolicyDoc, policyViolations doc ≠ [] →
      load_policy doc =
        Except.error (SchemaValidationError "policy" (policyViolations doc))) ∧
    (∀ (st : String) (errs : List String),
      (SchemaValidationError st errs).kind = ErrKind.SchemaValidationError ∧
      (SchemaValidationError st errs).details =
        [("schema_type", DetailValue.str st),
         ("errors", DetailValue.strList errs)]) ∧
    (∀ (doc : PolicyDoc) (p : Policy), load_policy doc = Except.ok p →
      policyViolations p.doc = [] ∧ p.doc = doc) := by
  refine ⟨?_, fun _ _ => ⟨rfl, rfl⟩, ?_⟩
  · intro doc h
    simp [load_policy, h]
  · intro doc p h
    by_cases hv : policyViolations doc = []
    · simp [load_policy, hv] at h
      subst h
      exact ⟨hv, rfl⟩
    · simp [load_policy, hv] at h

/-- Witness for C6 at a concrete malformed document whose declared default
outcome is ALLOW. -/
theorem malformed_policy_fails_at_load_witness :
    policyViolations badPolicyDoc ≠ [] ∧
    load_policy badPolicyDoc =
      Except.error
        (SchemaValidationError "policy" (policyViolations badPolicyDoc)) :=
  ⟨by decide,
   malformed_policy_fails_at_load.1 badPolicyDoc (by decide)⟩
